import Mathlib

/-!
Shallow embedding of the two scripts `script_template.py` and
`example_wiki_scraper.py`.

Modelling conventions:
* A pandas `DataFrame` is an ordered list of named columns, each an ordered
  list of cell values (`Value`).  Numeric cells are modelled at the value
  level: python ints as `Int`, floats as exact rationals (ℚ).  Dtype width
  (int8/int16/..., float32/float64) is a representation detail with no effect
  on the column VALUES in this model; the claims below are about values.
* External collaborators are oracle parameters: the HTTP transport
  (`fetch`), the table parser `pd.read_html` (`readHtml`), datetime parsing
  (`toDatetime`), and the numpy random source (`rand`).  A python exception
  raised by a collaborator is an `Except.error`.
* Functions that the python code lets raise are `Except`-valued; functions
  that cannot raise are total.
-/

/-- A python/pandas cell value: an integer, a float (modelled as an exact
rational), a string, a parsed datetime (kept as its source text), or an
opaque object. -/
inductive Value where
  | int (n : Int)
  | float (q : ℚ)
  | str (s : String)
  | datetime (s : String)
  | obj (tag : Nat)
deriving DecidableEq, Repr

/-- A pandas DataFrame: an ordered sequence of named columns. -/
structure DataFrame where
  cols : List (String × List Value)
deriving DecidableEq, Repr

namespace Value

def isInt : Value → Bool
  | .int _ => true
  | _ => false

def isFloat : Value → Bool
  | .float _ => true
  | _ => false

def isStr : Value → Bool
  | .str _ => true
  | _ => false

/-- Whether the value is of a numeric kind (int or float). -/
def isNumeric : Value → Bool
  | .int _ => true
  | .float _ => true
  | _ => false

/-- The numeric content of a value, when it has one. -/
def numVal? : Value → Option ℚ
  | .int n => some (n : ℚ)
  | .float q => some q
  | _ => none

/-- python `str(v)`, as far as this model needs it (it is the identity on
strings, which is the only case the claims exercise). -/
def pyStr : Value → String
  | .str s => s
  | .int n => toString n
  | .float q => toString q
  | .datetime s => s
  | .obj t => toString t

end Value

namespace DataFrame

/-- Column lookup `df[name]`: the first column with that name. -/
def getCol? (df : DataFrame) (name : String) : Option (List Value) :=
  (df.cols.find? (fun p => p.1 = name)).map (fun p => p.2)

/-- Column lookup that raises a python `KeyError` when absent. -/
def getColE (df : DataFrame) (name : String) : Except String (List Value) :=
  match df.getCol? name with
  | some col => .ok col
  | none => .error ("KeyError: " ++ name)

/-- Column assignment `df[name] = col`: replace the values of every column
with that name, or append a new column at the end. -/
def setCol (df : DataFrame) (name : String) (col : List Value) : DataFrame :=
  if df.cols.any (fun p => p.1 = name) then
    ⟨df.cols.map (fun p => if p.1 = name then (name, col) else p)⟩
  else
    ⟨df.cols ++ [(name, col)]⟩

/-- The list of column names, in order (`df.columns`). -/
def names (df : DataFrame) : List String :=
  df.cols.map (fun p => p.1)

end DataFrame

/-! ## `script_template.py` -/

namespace ScriptTemplate

/-- `np.random.rand(rows, cols)`: a rows×cols matrix of draws from the random
source.  The random source is the oracle `rand`; numpy guarantees each draw
lies in [0,1), which theorems take as a hypothesis. -/
def np_random_rand (rand : Nat → Nat → ℚ) (rows cols : Nat) : List (List ℚ) :=
  (List.range rows).map (fun i => (List.range cols).map (fun j => rand i j))

/-- `generate_random_dataframe(rows=5, cols=5)`: builds the random matrix and
wraps it in a DataFrame with column names `Column1..Column<cols>`
(`pd.DataFrame(data, columns=[f'Column{i+1}' for i in range(cols)])`). -/
def generate_random_dataframe (rand : Nat → Nat → ℚ) (rows : Nat := 5)
    (cols : Nat := 5) : DataFrame :=
  let data := np_random_rand rand rows cols
  ⟨(List.range cols).map (fun j =>
      ("Column" ++ toString (j + 1),
       data.map (fun row => Value.float (row.getD j 0))))⟩

/-- `log_dataframe(df)`: the log line it emits (`df.to_string()` is modelled
as a rendering of the column values; its exact text is irrelevant to the
claims). -/
def log_dataframe (df : DataFrame) : String :=
  "DataFrame contents:\n" ++
    String.intercalate "\n"
      (df.cols.map (fun p => p.1 ++ " " ++ String.intercalate " " (p.2.map Value.pyStr)))

/-- `main(args)` of `script_template.py`: generate a random DataFrame, log
it, return 0.  Nothing in the body can raise, so it is total. -/
def main (rand : Nat → Nat → ℚ) : Int :=
  let random_df := generate_random_dataframe rand
  let _logged := log_dataframe random_df
  0

end ScriptTemplate

/-! ## `example_wiki_scraper.py` -/

namespace WikiScraper

/-- `pandas.api.types.is_numeric_dtype(df[column])` on a column whose dtype
reflects its values (every DataFrame in these scripts is produced by a
pandas parser or generator that infers dtypes from the values): true iff
every value is of numeric kind. -/
def is_numeric_dtype (col : List Value) : Bool :=
  col.all Value.isNumeric

/-- `pandas.api.types.is_string_dtype(df[column])` under the same dtype
convention: true iff every value is a string. -/
def is_string_dtype (col : List Value) : Bool :=
  col.all Value.isStr

/-- The classification the loop body of `infer_data_types` assigns to one
column: `'Numeric'` if numeric dtype, else `'String'` if string dtype, else
`'Object'`. -/
def classify_column (col : List Value) : String :=
  if is_numeric_dtype col then "Numeric"
  else if is_string_dtype col then "String"
  else "Object"

/-- Insertion into the python dict `inferred_types`: overwriting an existing
key keeps its position, a new key is appended. -/
def dictInsert (m : List (String × String)) (k v : String) :
    List (String × String) :=
  if m.any (fun p => p.1 = k) then
    m.map (fun p => if p.1 = k then (k, v) else p)
  else
    m ++ [(k, v)]

/-- The dict `inferred_types` after the loop of `infer_data_types`:
`for column in df.columns: inferred_types[column] = <classification>`.
The loop body classifies the name lookup `df[column]`. -/
def inferred_types (df : DataFrame) : List (String × String) :=
  df.names.foldl
    (fun m name => dictInsert m name (classify_column ((df.getCol? name).getD []))) []

/-- `infer_data_types(df)`: a new two-column DataFrame
`pd.DataFrame(list(inferred_types.items()), columns=['Column', 'Inferred Type'])`. -/
def infer_data_types (df : DataFrame) : DataFrame :=
  ⟨[("Column", (inferred_types df).map (fun p => Value.str p.1)),
    ("Inferred Type", (inferred_types df).map (fun p => Value.str p.2))]⟩

/-- `pandas.api.types.infer_dtype(df[column])`, restricted to the kinds of
values this model has.  Pandas returns `'empty'` for an empty column,
`'integer'` / `'floating'` / `'string'` for homogeneous columns,
`'mixed-integer-float'` for an int/float mix, and a `'mixed*'` kind
otherwise. -/
def infer_dtype (col : List Value) : String :=
  if col.isEmpty then "empty"
  else if col.all Value.isInt then "integer"
  else if col.all Value.isFloat then "floating"
  else if col.all Value.isNumeric then "mixed-integer-float"
  else if col.all Value.isStr then "string"
  else if col.any Value.isInt then "mixed-integer"
  else "mixed"

/-- The three pandas coercion primitives `apply_inferred_types` calls.  They
are external library calls that may raise, so they are kept abstract here;
`pandasPrims` below is the concrete value-level behaviour. -/
structure CoercePrims where
  toNumericInt : List Value → Except String (List Value)
  toNumericFloat : List Value → Except String (List Value)
  astypeStr : List Value → Except String (List Value)

/-- The body of the `try` block of `apply_inferred_types` for one column:
infer the dtype and dispatch to the matching coercion, or leave the column
as it is. -/
def coerce_column (prims : CoercePrims) (col : List Value) :
    Except String (List Value) :=
  match infer_dtype col with
  | "integer" => prims.toNumericInt col
  | "floating" => prims.toNumericFloat col
  | "string" => prims.astypeStr col
  | _ => .ok col

/-- One iteration of the loop of `apply_inferred_types`: on success the
column is replaced, on an exception the error is logged
(`logger.error(f"Could not convert column {column}. Error: {e}")`) and the
column is left as it was. -/
def apply_one (prims : CoercePrims) (p : String × List Value) :
    (String × List Value) × List String :=
  match coerce_column prims p.2 with
  | .ok col => ((p.1, col), [])
  | .error e =>
      ((p.1, p.2), ["Could not convert column " ++ p.1 ++ ". Error: " ++ e])

/-- `apply_inferred_types(df)` with abstract coercion primitives, together
with the error log it produces: every column is processed in order, a
failing column is kept unmodified, and the loop never aborts. -/
def apply_inferred_types_with (prims : CoercePrims) (df : DataFrame) :
    DataFrame × List String :=
  (⟨df.cols.map (fun p => (apply_one prims p).1)⟩,
   df.cols.flatMap (fun p => (apply_one prims p).2))

/-- `pd.to_numeric(col, downcast=...)` at the value level: numeric values
are returned unchanged (downcasting shrinks the storage width, not the
value, on the homogeneous columns it is applied to), a numeric string is
parsed in reality but never reached here, and a non-parsable value raises. -/
def pd_to_numeric : Value → Except String Value
  | .int n => .ok (.int n)
  | .float q => .ok (.float q)
  | v => .error ("Unable to parse value " ++ v.pyStr)

/-- `col.astype(str)` at the value level: `str` of every value. -/
def pd_astype_str (col : List Value) : Except String (List Value) :=
  .ok (col.map (fun v => Value.str v.pyStr))

/-- The concrete value-level behaviour of the pandas primitives. -/
def pandasPrims : CoercePrims where
  toNumericInt := fun col => col.mapM pd_to_numeric
  toNumericFloat := fun col => col.mapM pd_to_numeric
  astypeStr := pd_astype_str

/-- `apply_inferred_types(df)`: the coerced DataFrame the function returns,
with the concrete pandas primitives. -/
def apply_inferred_types (df : DataFrame) : DataFrame :=
  (apply_inferred_types_with pandasPrims df).1

/-- `pd.to_datetime(x.astype(str))` applied to the `'Year'` column: each
value is rendered with `str` and handed to the datetime parser, which may
raise; `toDatetime` is the parser oracle. -/
def to_datetime_col (toDatetime : String → Except String String)
    (col : List Value) : Except String (List Value) :=
  col.mapM (fun v => (toDatetime v.pyStr).map Value.datetime)

/-- `series / 1000` on one cell: pandas true division maps ints and floats
to floats; on a non-numeric value the operation raises a `TypeError`. -/
def div_by_1000 : Value → Except String Value
  | .int n => .ok (.float ((n : ℚ) / 1000))
  | .float q => .ok (.float (q / 1000))
  | v => .error ("TypeError: unsupported operand for /: " ++ v.pyStr)

/-- `plot_world_population(df)`: overwrite `'Year'` with its parsed
datetimes, derive `'World Population (in millions)'` as the thousands
column divided by 1000, then render the plot (a display side effect with no
bearing on the data).  Any failure — a missing column, an unparsable year,
a non-numeric population cell — propagates to the caller; on normal
completion the function returns `None`, and the model also exposes the
mutated DataFrame. -/
def plot_world_population (toDatetime : String → Except String String)
    (df : DataFrame) : Except String DataFrame :=
  match df.getColE "Year" with
  | .error e => .error e
  | .ok year =>
      match to_datetime_col toDatetime year with
      | .error e => .error e
      | .ok year2 =>
          let df1 := df.setCol "Year" year2
          match df1.getColE "World Population (in thousands)" with
          | .error e => .error e
          | .ok thousands =>
              match thousands.mapM div_by_1000 with
              | .error e => .error e
              | .ok millions =>
                  .ok (df1.setCol "World Population (in millions)" millions)

/-- A `<table>` element of the fetched markup: its `class` attribute values
and its serialised form `str(table)`. -/
structure HtmlTable where
  classes : List String
  body : String
deriving DecidableEq, Repr

/-- The fetched page as seen through `BeautifulSoup(page.content,
'html.parser')`: its table elements in document order (the lenient parser
itself does not raise). -/
structure HtmlPage where
  tables : List HtmlTable
deriving DecidableEq, Repr

/-- `soup.find('table', {'class': 'wikitable'})` matches a table whose
class attribute contains `'wikitable'`. -/
def isWikitable (t : HtmlTable) : Bool :=
  t.classes.contains "wikitable"

/-- `scrape_wikipedia_demographics(url)`: fetch the page, find the first
`wikitable`-classed table, parse it with `pd.read_html` and return the
first parsed DataFrame.  `fetch` is the transport oracle and `readHtml` the
parser oracle; any exception from either, the absence of a matching table,
and an empty parse result (`[0]` raising `IndexError`) all land on the
`return None` path via the surrounding `try`/`except`. -/
def scrape_wikipedia_demographics (fetch : String → Except String HtmlPage)
    (readHtml : HtmlTable → Except String (List DataFrame)) (url : String) :
    Option DataFrame :=
  match fetch url with
  | .error _ => none
  | .ok page =>
      match page.tables.find? isWikitable with
      | none => none
      | some t =>
          match readHtml t with
          | .error _ => none
          | .ok dfs => dfs.head?

/-- The hardcoded URL `main` scrapes. -/
def wiki_url : String := "https://en.wikipedia.org/wiki/Demographics_of_the_world"

/-- `main(args)` of `example_wiki_scraper.py`: scrape the fixed URL; when a
DataFrame came back, coerce its types and plot it (a plotting exception
propagates, hence the `Except`); in every case reaching the final line,
return 0. -/
def main (fetch : String → Except String HtmlPage)
    (readHtml : HtmlTable → Except String (List DataFrame))
    (toDatetime : String → Except String String) : Except String Int := do
  match scrape_wikipedia_demographics fetch readHtml wiki_url with
  | none => pure 0
  | some df => do
      let df := apply_inferred_types df
      let _df ← plot_world_population toDatetime df
      pure 0

end WikiScraper

/-! ### Reference-level model

Python DataFrames are heap objects passed by reference; in-place mutation
and object identity are modelled with an explicit heap (a list of
DataFrames) and references into it (indices). -/

namespace WikiScraper

/-- `apply_inferred_types` at the reference level: the loop body
`df[column] = ...` mutates the argument object in place, and the final
`return df` hands back the reference the function was called with. -/
def apply_inferred_types_ref (r : Nat) (heap : List DataFrame) :
    Nat × List DataFrame :=
  (r, heap.set r (apply_inferred_types (heap.getD r ⟨[]⟩)))

/-- `infer_data_types` at the reference level: the body only reads
`df[column]` and allocates a fresh DataFrame
(`pd.DataFrame(list(inferred_types.items()), ...)`), returned as a new
reference. -/
def infer_data_types_ref (r : Nat) (heap : List DataFrame) :
    Nat × List DataFrame :=
  (heap.length, heap ++ [infer_data_types (heap.getD r ⟨[]⟩)])

end WikiScraper

/-! ## Concrete fixtures used to evaluate the theorems -/

namespace Fixtures

open WikiScraper

/-- Coercion primitives whose `astype(str)` raises, to exercise the
`except` branch of `apply_inferred_types`. -/
def failPrims : CoercePrims where
  toNumericInt := pandasPrims.toNumericInt
  toNumericFloat := pandasPrims.toNumericFloat
  astypeStr := fun _ => Except.error "boom"

/-- A dataset with one integer column and one string column. -/
def failDf : DataFrame := ⟨[("nums", [Value.int 1]), ("words", [Value.str "a"])]⟩

/-- A dataset with an all-integer, an all-string and an opaque column. -/
def typesDf : DataFrame :=
  ⟨[("n", [Value.int 1, Value.int 2]),
    ("s", [Value.str "a"]),
    ("o", [Value.obj 0])]⟩

/-- A dataset with two columns sharing the name `A`. -/
def dupDf : DataFrame := ⟨[("A", [Value.int 1]), ("A", [Value.int 2])]⟩

/-- A one-object heap for the reference-level theorems. -/
def heapW : List DataFrame := [typesDf]

/-- A demographics table: years and a population-in-thousands column. -/
def popDf : DataFrame :=
  ⟨[("Year", [Value.int 2000, Value.int 2001]),
    ("World Population (in thousands)", [Value.int 1000, Value.int 2000])]⟩

/-- The demographics table after `plot_world_population`: years parsed,
millions column derived (rational values kept unnormalised, as the division
produces them). -/
def popDfPlotted : DataFrame :=
  ⟨[("Year", [Value.datetime "2000", Value.datetime "2001"]),
    ("World Population (in thousands)", [Value.int 1000, Value.int 2000]),
    ("World Population (in millions)",
      [Value.float (((1000 : Int) : ℚ) / 1000),
       Value.float (((2000 : Int) : ℚ) / 1000)])]⟩

/-- A table with a thousands column but no `Year` column. -/
def noYearDf : DataFrame :=
  ⟨[("World Population (in thousands)", [Value.int 1000, Value.int 2000])]⟩

/-- A datetime parser that accepts every string. -/
def okDatetime : String → Except String String := fun s => Except.ok s

/-- A transport that raises a connection error on every URL. -/
def fetchFail : String → Except String HtmlPage :=
  fun _ => Except.error "ConnectionError"

/-- A table without the `wikitable` class marker. -/
def plainTable : HtmlTable := ⟨["infobox"], "<table>0</table>"⟩

/-- Two tables bearing the `wikitable` class marker. -/
def wikiTable1 : HtmlTable := ⟨["wikitable", "sortable"], "<table>1</table>"⟩

def wikiTable2 : HtmlTable := ⟨["wikitable"], "<table>2</table>"⟩

/-- A fetched page with no `wikitable`-classed table. -/
def pageNoWiki : HtmlPage := ⟨[plainTable]⟩

def fetchNoWiki : String → Except String HtmlPage :=
  fun _ => Except.ok pageNoWiki

/-- A fetched page with a plain table followed by two `wikitable` tables. -/
def pageTwoWiki : HtmlPage := ⟨[plainTable, wikiTable1, wikiTable2]⟩

def fetchTwoWiki : String → Except String HtmlPage :=
  fun _ => Except.ok pageTwoWiki

/-- A `pd.read_html` oracle that raises on every table. -/
def readHtmlNone : HtmlTable → Except String (List DataFrame) :=
  fun _ => Except.error "ValueError: No tables found"

/-- A `pd.read_html` oracle that parses a table into a one-cell DataFrame
recording the table's serialised body, so results of different tables are
distinguishable. -/
def readHtmlBody : HtmlTable → Except String (List DataFrame) :=
  fun t => Except.ok [⟨[("t", [Value.str t.body])]⟩]

/-- A degenerate random source. -/
def halfRand : Nat → Nat → ℚ := fun _ _ => 1/2

end Fixtures

/-! ## Helper lemmas on the coercion pass -/

namespace WikiScraper

lemma isNumeric_of_isInt {v : Value} (h : v.isInt = true) :
    v.isNumeric = true := by
  cases v <;> simp_all [Value.isInt, Value.isNumeric]

lemma isNumeric_of_isFloat {v : Value} (h : v.isFloat = true) :
    v.isNumeric = true := by
  cases v <;> simp_all [Value.isFloat, Value.isNumeric]

lemma mapM_pd_to_numeric_of_all {col : List Value}
    (h : col.all Value.isNumeric = true) :
    col.mapM pd_to_numeric = Except.ok col := by
  induction col with
  | nil => rfl
  | cons v t ih =>
      simp only [List.all_cons, Bool.and_eq_true] at h
      rw [List.mapM_cons, ih h.2]
      cases v <;> simp_all [Value.isNumeric, pd_to_numeric, Except.bind]
      <;> rfl

lemma pd_astype_str_of_all {col : List Value} (h : col.all Value.isStr = true) :
    pd_astype_str col = Except.ok col := by
  unfold pd_astype_str
  congr 1
  induction col with
  | nil => rfl
  | cons v t ih =>
      simp only [List.all_cons, Bool.and_eq_true] at h
      cases v <;> simp_all [Value.isStr, Value.pyStr, List.map_cons]

/-- With the concrete pandas primitives the coercion of a column never
raises and never changes the column's values: integer and floating columns
pass through `pd.to_numeric` unchanged, string columns through `astype(str)`
unchanged, and every other dtype is left alone by the dispatch. -/
lemma coerce_column_pandas (col : List Value) :
    coerce_column pandasPrims col = Except.ok col := by
  unfold coerce_column
  split
  case _ h =>
      unfold infer_dtype at h
      split_ifs at h with h1 h2 h3 h4 h5 h6 <;> first
        | exact mapM_pd_to_numeric_of_all
            (by exact List.all_eq_true.2 fun v hv =>
              isNumeric_of_isInt (List.all_eq_true.1 h2 v hv))
        | exact absurd h (by decide)
  case _ h =>
      unfold infer_dtype at h
      split_ifs at h with h1 h2 h3 h4 h5 h6 <;> first
        | exact mapM_pd_to_numeric_of_all
            (by exact List.all_eq_true.2 fun v hv =>
              isNumeric_of_isFloat (List.all_eq_true.1 h3 v hv))
        | exact absurd h (by decide)
  case _ h =>
      unfold infer_dtype at h
      split_ifs at h with h1 h2 h3 h4 h5 h6 <;> first
        | exact pd_astype_str_of_all h5
        | exact absurd h (by decide)
  case _ => rfl

lemma apply_one_pandas (p : String × List Value) :
    apply_one pandasPrims p = (p, []) := by
  unfold apply_one
  rw [coerce_column_pandas]

/-- At the value level the concrete coercion pass fixes every DataFrame
(dtype narrowing changes the storage representation, never the values). -/
lemma apply_inferred_types_fix (df : DataFrame) :
    apply_inferred_types df = df := by
  cases df with
  | mk cols =>
      unfold apply_inferred_types apply_inferred_types_with
      simp [apply_one_pandas]

end WikiScraper

/-! ## Claim theorems -/

namespace WikiScraper

lemma find?_append_first {α : Type} (p : α → Bool) (pre post : List α) (t : α)
    (hpre : ∀ x ∈ pre, p x = false) (ht : p t = true) :
    (pre ++ t :: post).find? p = some t := by
  induction pre with
  | nil => simpa using List.find?_cons_of_pos post ht
  | cons x xs ih =>
      rw [List.cons_append, List.find?_cons_of_neg]
      · exact ih fun y hy => hpre y (List.mem_cons_of_mem x hy)
      · simp [hpre x (List.mem_cons_self x xs)]

/-- C1: for every URL, `scrape_wikipedia_demographics` never raises to its
caller: when the transport raises, or when the fetched markup has no table
bearing the `wikitable` class marker, the result is `none` rather than a
propagated exception (the function is total in the model, and both failure
paths land on `return None`). -/
theorem scrape_absent_on_failure
    (fetch : String → Except String HtmlPage)
    (readHtml : HtmlTable → Except String (List DataFrame)) (url : String) :
    (∀ e, fetch url = Except.error e →
      scrape_wikipedia_demographics fetch readHtml url = none) ∧
    (∀ page, fetch url = Except.ok page →
      page.tables.find? isWikitable = none →
      scrape_wikipedia_demographics fetch readHtml url = none) := by
  constructor
  · intro e he
    simp [scrape_wikipedia_demographics, he]
  · intro page hp hfind
    simp [scrape_wikipedia_demographics, hp, hfind]

/-- Witness for C1: a raising transport and a page with only a
non-`wikitable` table both yield an absent result. -/
theorem scrape_absent_on_failure_witness :
    scrape_wikipedia_demographics Fixtures.fetchFail Fixtures.readHtmlNone
      wiki_url = none ∧
    scrape_wikipedia_demographics Fixtures.fetchNoWiki Fixtures.readHtmlNone
      wiki_url = none :=
  ⟨(scrape_absent_on_failure Fixtures.fetchFail Fixtures.readHtmlNone
      wiki_url).1 "ConnectionError" rfl,
   (scrape_absent_on_failure Fixtures.fetchNoWiki Fixtures.readHtmlNone
      wiki_url).2 Fixtures.pageNoWiki rfl rfl⟩

/-- C7: on a successful fetch whose markup contains a `wikitable`-classed
table, `scrape_wikipedia_demographics` hands exactly the first such table
(in document order) to `pd.read_html` and returns that parse's first
DataFrame; matching tables appearing later in the document do not influence
the result. -/
theorem scrape_first_matching_table
    (fetch : String → Except String HtmlPage)
    (readHtml : HtmlTable → Except String (List DataFrame)) (url : String)
    (page : HtmlPage) (pre post : List HtmlTable) (t : HtmlTable)
    (dfs : List DataFrame)
    (hfetch : fetch url = Except.ok page)
    (htables : page.tables = pre ++ t :: post)
    (hpre : ∀ x ∈ pre, isWikitable x = false)
    (ht : isWikitable t = true)
    (hread : readHtml t = Except.ok dfs) :
    scrape_wikipedia_demographics fetch readHtml url = dfs.head? := by
  simp [scrape_wikipedia_demographics, hfetch, htables,
    find?_append_first isWikitable pre post t hpre ht, hread]

/-- Witness for C7: a page holding a plain table and two `wikitable`
tables; the scrape returns the parse of the first `wikitable` table, not
the second one's. -/
theorem scrape_first_matching_table_witness :
    scrape_wikipedia_demographics Fixtures.fetchTwoWiki Fixtures.readHtmlBody
      wiki_url = some ⟨[("t", [Value.str "<table>1</table>"])]⟩ :=
  scrape_first_matching_table Fixtures.fetchTwoWiki Fixtures.readHtmlBody
    wiki_url Fixtures.pageTwoWiki [Fixtures.plainTable] [Fixtures.wikiTable2]
    Fixtures.wikiTable1 [⟨[("t", [Value.str "<table>1</table>"])]⟩]
    rfl rfl (by decide) (by decide) rfl

/-- C8: on every normal (non-exceptional) completion, `main` returns exit
code 0 — in both scripts; in particular the demographics `main` returns 0
when the scrape result is absent and the plotting branch is skipped, and
the template `main` always returns 0. -/
theorem main_exit_zero
    (fetch : String → Except String HtmlPage)
    (readHtml : HtmlTable → Except String (List DataFrame))
    (toDatetime : String → Except String String) (rand : Nat → Nat → ℚ) :
    (∀ n, main fetch readHtml toDatetime = Except.ok n → n = 0) ∧
    (scrape_wikipedia_demographics fetch readHtml wiki_url = none →
      main fetch readHtml toDatetime = Except.ok 0) ∧
    ScriptTemplate.main rand = 0 := by
  refine ⟨?_, ?_, rfl⟩
  · intro n h
    unfold main at h
    cases hs : scrape_wikipedia_demographics fetch readHtml wiki_url with
    | none =>
        rw [hs] at h
        exact (Except.ok.inj h).symm
    | some df =>
        rw [hs] at h
        cases hp : plot_world_population toDatetime (apply_inferred_types df) with
        | error e => simp [hp, Except.bind] at h
        | ok df2 =>
            simp only [hp, Except.bind] at h
            exact (Except.ok.inj h).symm
  · intro hnone
    unfold main
    rw [hnone]
    rfl

/-- Witness for C8: with a failing transport the scrape is absent, the
plotting branch is skipped, and the demographics `main` still returns 0;
the template `main` returns 0 on a concrete random source. -/
theorem main_exit_zero_witness :
    main Fixtures.fetchFail Fixtures.readHtmlNone Fixtures.okDatetime =
      Except.ok 0 ∧
    ScriptTemplate.main Fixtures.halfRand = 0 :=
  ⟨(main_exit_zero Fixtures.fetchFail Fixtures.readHtmlNone Fixtures.okDatetime
      Fixtures.halfRand).2.1 rfl,
   (main_exit_zero Fixtures.fetchFail Fixtures.readHtmlNone Fixtures.okDatetime
      Fixtures.halfRand).2.2⟩

end WikiScraper

namespace WikiScraper

/-- C4: type coercion is idempotent — applying `apply_inferred_types` twice
yields the same column values as applying it once (at the value level the
pass re-derives the same homogeneous dtypes and the coercions fix every
value). -/
theorem apply_inferred_types_idempotent (df : DataFrame) :
    apply_inferred_types (apply_inferred_types df) = apply_inferred_types df := by
  rw [apply_inferred_types_fix (apply_inferred_types df)]

/-- C5: when the coercion of one column raises, `apply_inferred_types`
catches the exception, logs the `Could not convert column ...` error,
leaves exactly that column's values unmodified, and still processes every
remaining column (each output column is determined by its own column's
coercion outcome alone) and returns the dataset.  Stated for arbitrary
behaviour of the pandas coercion primitives, which are the only sources of
exceptions in the `try` body. -/
theorem apply_inferred_types_error_handling (prims : CoercePrims)
    (df : DataFrame) :
    List.Forall₂
      (fun p q =>
        (∀ e, coerce_column prims p.2 = Except.error e → q = p) ∧
        (∀ c, coerce_column prims p.2 = Except.ok c → q = (p.1, c)))
      df.cols (apply_inferred_types_with prims df).1.cols ∧
    ∀ p ∈ df.cols, ∀ e, coerce_column prims p.2 = Except.error e →
      ("Could not convert column " ++ p.1 ++ ". Error: " ++ e) ∈
        (apply_inferred_types_with prims df).2 := by
  constructor
  · show List.Forall₂ _ df.cols (df.cols.map fun p => (apply_one prims p).1)
    rw [List.forall₂_map_right_iff, List.forall₂_same]
    intro p hp
    constructor
    · intro e he
      unfold apply_one
      rw [he]
    · intro c hc
      unfold apply_one
      rw [hc]
  · intro p hp e he
    show _ ∈ df.cols.flatMap fun p => (apply_one prims p).2
    rw [List.mem_flatMap]
    refine ⟨p, hp, ?_⟩
    unfold apply_one
    rw [he]
    simp

/-- Witness for C5: with an `astype(str)` that raises, the string column
`words` is left unmodified and its error is logged, while the integer
column `nums` is still coerced; the two-column dataset comes back whole. -/
theorem apply_inferred_types_error_handling_witness :
    ("Could not convert column words. Error: boom" ∈
      (apply_inferred_types_with Fixtures.failPrims Fixtures.failDf).2) ∧
    (apply_inferred_types_with Fixtures.failPrims Fixtures.failDf).1.cols.getD 1
      ("", []) = ("words", [Value.str "a"]) ∧
    (apply_inferred_types_with Fixtures.failPrims Fixtures.failDf).1.cols.length
      = 2 :=
  ⟨(apply_inferred_types_error_handling Fixtures.failPrims Fixtures.failDf).2
      ("words", [Value.str "a"]) (by decide) "boom" rfl,
   rfl, rfl⟩

/-- C9: `apply_inferred_types` mutates its argument in place and returns
the very reference it was given — at the heap level the returned reference
equals the argument reference, the object behind it now holds the coerced
dataset, and no new object is allocated — so the caller's dataset aliases
the coerced result. -/
theorem apply_inferred_types_ref_identity (r : Nat) (heap : List DataFrame)
    (h : r < heap.length) :
    (apply_inferred_types_ref r heap).1 = r ∧
    (apply_inferred_types_ref r heap).2.getD r ⟨[]⟩ =
      apply_inferred_types (heap.getD r ⟨[]⟩) ∧
    (apply_inferred_types_ref r heap).2.length = heap.length := by
  refine ⟨rfl, ?_, by simp [apply_inferred_types_ref]⟩
  unfold apply_inferred_types_ref
  rw [List.getD_eq_getElem _ _ (by simpa using h), List.getElem_set_self]

/-- Witness for C9 on a one-object heap. -/
theorem apply_inferred_types_ref_identity_witness :
    (apply_inferred_types_ref 0 Fixtures.heapW).1 = 0 ∧
    (apply_inferred_types_ref 0 Fixtures.heapW).2.getD 0 ⟨[]⟩ =
      apply_inferred_types (Fixtures.heapW.getD 0 ⟨[]⟩) ∧
    (apply_inferred_types_ref 0 Fixtures.heapW).2.length =
      Fixtures.heapW.length :=
  apply_inferred_types_ref_identity 0 Fixtures.heapW
    (by simp [Fixtures.heapW])

end WikiScraper

namespace WikiScraper

lemma classify_column_cases (col : List Value) :
    classify_column col = "Numeric" ∨ classify_column col = "String" ∨
      classify_column col = "Object" := by
  unfold classify_column
  split_ifs <;> simp

lemma dictInsert_values {P : String → Prop} {m : List (String × String)}
    {k v : String} (hm : ∀ p ∈ m, P p.2) (hv : P v) :
    ∀ p ∈ dictInsert m k v, P p.2 := by
  intro p hp
  unfold dictInsert at hp
  split_ifs at hp with h
  · rcases List.mem_map.1 hp with ⟨q, hq, rfl⟩
    by_cases hk : q.1 = k
    · simpa [hk] using hv
    · simpa [hk] using hm q hq
  · rcases List.mem_append.1 hp with hp | hp
    · exact hm p hp
    · rcases List.mem_singleton.1 hp with rfl
      exact hv

lemma inferred_types_values (df : DataFrame) :
    ∀ p ∈ inferred_types df,
      p.2 = "Numeric" ∨ p.2 = "String" ∨ p.2 = "Object" := by
  unfold inferred_types
  suffices h : ∀ (l : List String) (m : List (String × String)),
      (∀ p ∈ m, p.2 = "Numeric" ∨ p.2 = "String" ∨ p.2 = "Object") →
      ∀ p ∈ l.foldl
        (fun m name =>
          dictInsert m name (classify_column ((df.getCol? name).getD []))) m,
        p.2 = "Numeric" ∨ p.2 = "String" ∨ p.2 = "Object" by
    exact h df.names [] (by simp)
  intro l
  induction l with
  | nil => intro m hm; simpa using hm
  | cons x xs ih =>
      intro m hm
      rw [List.foldl_cons]
      exact ih _
        (@dictInsert_values
          (fun s => s = "Numeric" ∨ s = "String" ∨ s = "Object") _ _ _
          hm (classify_column_cases _))

/-- C6: the type-inference pass classifies every all-integer column as
`Numeric` and every nonempty all-string column as `String`, and the
`Inferred Type` column of its result maps each entry to exactly one of
`Numeric`, `String`, `Object`. -/
theorem infer_data_types_classification (df : DataFrame) :
    (∀ p ∈ df.cols,
      (p.2.all Value.isInt = true → classify_column p.2 = "Numeric") ∧
      (p.2 ≠ [] → p.2.all Value.isStr = true → classify_column p.2 = "String")) ∧
    ∀ v ∈ ((infer_data_types df).getCol? "Inferred Type").getD [],
      v = Value.str "Numeric" ∨ v = Value.str "String" ∨
        v = Value.str "Object" := by
  constructor
  · intro p hp
    constructor
    · intro hint
      unfold classify_column is_numeric_dtype
      rw [if_pos]
      exact List.all_eq_true.2 fun v hv =>
        isNumeric_of_isInt (List.all_eq_true.1 hint v hv)
    · intro hne hstr
      rcases List.exists_cons_of_ne_nil hne with ⟨v, t, hvt⟩
      have hv : v.isStr = true := by
        have h := hstr
        rw [hvt, List.all_cons, Bool.and_eq_true] at h
        exact h.1
      have hnum : p.2.all Value.isNumeric = false := by
        rw [hvt, List.all_cons]
        cases v <;> simp_all [Value.isStr, Value.isNumeric]
      simp [classify_column, is_numeric_dtype, is_string_dtype, hnum, hstr]
  · intro v hv
    rw [show ((infer_data_types df).getCol? "Inferred Type").getD [] =
        (inferred_types df).map (fun p => Value.str p.2) from rfl] at hv
    rcases List.mem_map.1 hv with ⟨q, hq, rfl⟩
    rcases inferred_types_values df q hq with h | h | h <;> rw [h] <;> simp

/-- Witness for C6 on a dataset with an all-integer and an all-string
column. -/
theorem infer_data_types_classification_witness :
    classify_column [Value.int 1, Value.int 2] = "Numeric" ∧
    classify_column [Value.str "a"] = "String" :=
  ⟨((infer_data_types_classification Fixtures.typesDf).1
      ("n", [Value.int 1, Value.int 2]) (by decide)).1 (by decide),
   ((infer_data_types_classification Fixtures.typesDf).1
      ("s", [Value.str "a"]) (by decide)).2 (by decide) (by decide)⟩

end WikiScraper

namespace WikiScraper

lemma dictInsert_not_mem {m : List (String × String)} {k v : String}
    (h : ∀ p ∈ m, p.1 ≠ k) :
    dictInsert m k v = m ++ [(k, v)] := by
  unfold dictInsert
  rw [if_neg]
  simp only [List.any_eq_true, decide_eq_true_eq, not_exists]
  rintro x ⟨hx, hxk⟩
  exact h x hx hxk

lemma foldl_dictInsert_nodup (f : String → String) :
    ∀ (l : List String) (m : List (String × String)),
      l.Nodup → (∀ n ∈ l, ∀ p ∈ m, p.1 ≠ n) →
      l.foldl (fun m n => dictInsert m n (f n)) m =
        m ++ l.map (fun n => (n, f n)) := by
  intro l
  induction l with
  | nil => intro m _ _; simp
  | cons x xs ih =>
      intro m hnd hdisj
      have hx : x ∉ xs := (List.nodup_cons.1 hnd).1
      rw [List.foldl_cons,
        dictInsert_not_mem (fun p hp => hdisj x (List.mem_cons_self x xs) p hp),
        ih (m ++ [(x, f x)]) (List.nodup_cons.1 hnd).2 ?_]
      · simp
      · intro n hn p hp
        rcases List.mem_append.1 hp with hp | hp
        · exact hdisj n (List.mem_cons_of_mem x hn) p hp
        · rcases List.mem_singleton.1 hp with rfl
          intro hxn
          exact hx (by rw [show x = n from hxn]; exact hn)

/-- When the column names are pairwise distinct, the python dict built by
`infer_data_types` has exactly one entry per column, in input order. -/
lemma inferred_types_nodup (df : DataFrame) (h : df.names.Nodup) :
    inferred_types df =
      df.names.map (fun n => (n, classify_column ((df.getCol? n).getD []))) := by
  unfold inferred_types
  rw [foldl_dictInsert_nodup _ df.names [] h (by simp)]
  simp

/-- C10 amended: `infer_data_types` never modifies its input and returns a
fresh two-column table named `Column` and `Inferred Type` holding one row
per DISTINCT column name of the input; in particular, when the input's
column names are pairwise distinct it holds exactly one row per input
column, in input order.  Freshness and non-modification are at the
reference level: the returned reference is a newly allocated one and every
pre-existing heap object is unchanged. -/
theorem infer_data_types_fresh_rows (df : DataFrame) (r : Nat)
    (heap : List DataFrame) :
    (infer_data_types df).names = ["Column", "Inferred Type"] ∧
    (df.names.Nodup →
      ((infer_data_types df).getCol? "Column").getD [] =
        df.names.map Value.str ∧
      (((infer_data_types df).getCol? "Inferred Type").getD []).length =
        df.cols.length) ∧
    (r < heap.length →
      (infer_data_types_ref r heap).1 = heap.length ∧
      ∀ i < heap.length,
        (infer_data_types_ref r heap).2.getD i ⟨[]⟩ = heap.getD i ⟨[]⟩) := by
  refine ⟨rfl, fun hnd => ⟨?_, ?_⟩, fun hr => ⟨rfl, fun i hi => ?_⟩⟩
  · rw [show ((infer_data_types df).getCol? "Column").getD [] =
        (inferred_types df).map (fun p => Value.str p.1) from rfl,
      inferred_types_nodup df hnd]
    simp
  · rw [show ((infer_data_types df).getCol? "Inferred Type").getD [] =
        (inferred_types df).map (fun p => Value.str p.2) from rfl,
      inferred_types_nodup df hnd]
    simp [DataFrame.names]
  · unfold infer_data_types_ref
    rw [List.getD_eq_getElem _ _ (by simp; omega),
      List.getD_eq_getElem _ _ hi, List.getElem_append_left hi]

/-- C10 counterexample: on an input with two columns both named `A`, the
result of `infer_data_types` has a single row, not one row per column of
the input — the python dict collapses duplicate column names. -/
theorem infer_data_types_dup_counterexample :
    (((infer_data_types Fixtures.dupDf).getCol? "Column").getD []).length = 1 ∧
    Fixtures.dupDf.cols.length = 2 := by
  exact ⟨rfl, rfl⟩

/-- Witness for the amended C10 on a dataset with distinct column names and
a one-object heap. -/
theorem infer_data_types_fresh_rows_witness :
    (infer_data_types Fixtures.typesDf).names = ["Column", "Inferred Type"] ∧
    ((infer_data_types Fixtures.typesDf).getCol? "Column").getD [] =
      Fixtures.typesDf.names.map Value.str ∧
    (infer_data_types_ref 0 Fixtures.heapW).1 = Fixtures.heapW.length ∧
    (infer_data_types_ref 0 Fixtures.heapW).2.getD 0 ⟨[]⟩ =
      Fixtures.heapW.getD 0 ⟨[]⟩ :=
  have h := infer_data_types_fresh_rows Fixtures.typesDf 0 Fixtures.heapW
  have hlen : 0 < Fixtures.heapW.length := by simp [Fixtures.heapW]
  ⟨h.1, (h.2.1 (by decide)).1, (h.2.2 hlen).1, (h.2.2 hlen).2 0 hlen⟩

end WikiScraper

namespace WikiScraper

lemma find?_map_name (l : List (String × List Value)) (n₁ n₂ : String)
    (c : List Value) (h : n₂ ≠ n₁) :
    (((l.map (fun p => if p.1 = n₁ then (n₁, c) else p)).find?
        (fun p => p.1 = n₂)).map (fun p => p.2)) =
      ((l.find? (fun p => p.1 = n₂)).map (fun p => p.2)) := by
  induction l with
  | nil => rfl
  | cons p t ih =>
      by_cases h1 : p.1 = n₁
      · rw [List.map_cons, if_pos h1,
          List.find?_cons_of_neg _ (by simp [h.symm]),
          List.find?_cons_of_neg _ (by simp [h1, h.symm])]
        exact ih
      · rw [List.map_cons, if_neg h1]
        by_cases h2 : p.1 = n₂
        · rw [List.find?_cons_of_pos _ (by simp [h2]),
            List.find?_cons_of_pos _ (by simp [h2])]
        · rw [List.find?_cons_of_neg _ (by simp [h2]),
            List.find?_cons_of_neg _ (by simp [h2])]
          exact ih

lemma getCol?_setCol_ne (df : DataFrame) (n₁ n₂ : String) (c : List Value)
    (h : n₂ ≠ n₁) :
    (df.setCol n₁ c).getCol? n₂ = df.getCol? n₂ := by
  unfold DataFrame.setCol DataFrame.getCol?
  split_ifs with hany
  · exact find?_map_name df.cols n₁ n₂ c h
  · rw [List.find?_append,
      show List.find? (fun p => p.1 = n₂) [(n₁, c)] = none by
        rw [List.find?_cons_of_neg _ (by simp [h.symm])]
        rfl]
    cases df.cols.find? (fun p => p.1 = n₂) <;> rfl

lemma find?_map_name_self (l : List (String × List Value)) (n : String)
    (c : List Value) (hany : l.any (fun p => p.1 = n) = true) :
    (l.map (fun p => if p.1 = n then (n, c) else p)).find?
      (fun p => p.1 = n) = some (n, c) := by
  induction l with
  | nil => simp at hany
  | cons p t ih =>
      by_cases h1 : p.1 = n
      · rw [List.map_cons, if_pos h1, List.find?_cons_of_pos _ (by simp)]
      · rw [List.map_cons, if_neg h1, List.find?_cons_of_neg _ (by simp [h1])]
        exact ih (by simpa [h1] using hany)

lemma getCol?_setCol_self (df : DataFrame) (n : String) (c : List Value) :
    (df.setCol n c).getCol? n = some c := by
  unfold DataFrame.setCol DataFrame.getCol?
  split_ifs with hany
  · rw [find?_map_name_self df.cols n c hany]
    rfl
  · have hnone : df.cols.find? (fun p => decide (p.1 = n)) = none := by
      rw [List.find?_eq_none]
      intro x hx hdec
      exact hany (List.any_eq_true.2 ⟨x, hx, hdec⟩)
    rw [List.find?_append, hnone, List.find?_cons_of_pos _ (by simp)]
    rfl

lemma mapM_div_ok (l : List Value) :
    ∀ l', l.mapM div_by_1000 = Except.ok l' →
      l' = l.map (fun t => Value.float ((t.numVal?.getD 0) / 1000)) ∧
      ∀ t ∈ l, t.isNumeric = true := by
  induction l with
  | nil =>
      intro l' h
      obtain rfl : l' = [] := (Except.ok.inj h).symm
      exact ⟨rfl, by simp⟩
  | cons v t ih =>
      intro l' h
      rw [List.mapM_cons] at h
      cases hv : div_by_1000 v with
      | error e => rw [hv] at h; injection h
      | ok w =>
          rw [hv] at h
          cases ht : t.mapM div_by_1000 with
          | error e => rw [ht] at h; injection h
          | ok ws =>
              rw [ht] at h
              obtain rfl : l' = w :: ws := (Except.ok.inj h).symm
              obtain ⟨h1, h2⟩ := ih ws ht
              refine ⟨?_, ?_⟩
              · rw [List.map_cons, ← h1]
                congr 1
                cases v <;> simp_all [div_by_1000, Value.numVal?]
              · intro x hx
                rcases List.mem_cons.1 hx with hxv | hx
                · subst hxv
                  cases x <;> simp_all [div_by_1000, Value.isNumeric]
                · exact h2 x hx

/-- C2: on any run of `plot_world_population` that completes normally, the
derived `World Population (in millions)` column of the resulting dataset is
exactly the input's `World Population (in thousands)` column divided
entrywise by 1000 (pandas true division: each numeric entry becomes the
float of its value over 1000), and every thousands entry was numeric. -/
theorem plot_world_population_millions
    (toDatetime : String → Except String String) (df df' : DataFrame)
    (thousands : List Value)
    (hok : plot_world_population toDatetime df = Except.ok df')
    (hth : df.getCol? "World Population (in thousands)" = some thousands) :
    df'.getCol? "World Population (in millions)" =
      some (thousands.map (fun t => Value.float ((t.numVal?.getD 0) / 1000))) ∧
    ∀ t ∈ thousands, t.isNumeric = true := by
  unfold plot_world_population at hok
  cases hy : df.getColE "Year" with
  | error e => rw [hy] at hok; injection hok
  | ok year =>
      simp only [hy] at hok
      cases hy2 : to_datetime_col toDatetime year with
      | error e => simp only [hy2] at hok; injection hok
      | ok year2 =>
          simp only [hy2] at hok
          cases hth1 : (df.setCol "Year" year2).getColE
              "World Population (in thousands)" with
          | error e => simp only [hth1] at hok; injection hok
          | ok thousands1 =>
              simp only [hth1] at hok
              cases hm : thousands1.mapM div_by_1000 with
              | error e => simp only [hm] at hok; injection hok
              | ok millions =>
                  simp only [hm] at hok
                  obtain rfl := Except.ok.inj hok
                  have hsame : (df.setCol "Year" year2).getCol?
                      "World Population (in thousands)" = some thousands := by
                    rw [getCol?_setCol_ne df _ _ year2 (by decide)]
                    exact hth
                  have heq : thousands1 = thousands := by
                    unfold DataFrame.getColE at hth1
                    rw [hsame] at hth1
                    exact (Except.ok.inj hth1).symm
                  subst heq
                  obtain ⟨hmap, hnum⟩ := mapM_div_ok thousands1 millions hm
                  subst hmap
                  exact ⟨getCol?_setCol_self _ _ _, hnum⟩

/-- Witness for C2: a table whose thousands column is `[1000, 2000]` plots
successfully and its derived millions column is `[1.0, 2.0]`. -/
theorem plot_world_population_millions_witness :
    plot_world_population Fixtures.okDatetime Fixtures.popDf =
      Except.ok Fixtures.popDfPlotted ∧
    Fixtures.popDfPlotted.getCol? "World Population (in millions)" =
      some [Value.float 1, Value.float 2] := by
  have hok : plot_world_population Fixtures.okDatetime Fixtures.popDf =
      Except.ok Fixtures.popDfPlotted := rfl
  refine ⟨hok, ?_⟩
  have h := plot_world_population_millions Fixtures.okDatetime Fixtures.popDf
    Fixtures.popDfPlotted [Value.int 1000, Value.int 2000] hok rfl
  refine h.1.trans ?_
  norm_num [Value.numVal?]

end WikiScraper

namespace ScriptTemplate

/-- C3: for all `(rows, cols)` with the numpy guarantee that every draw is
in `[0,1)`, `generate_random_dataframe` returns a table with exactly `cols`
columns named `Column1..Column<cols>` in order, each holding exactly `rows`
values, every value a float in `[0,1)`; the argument defaults are 5 rows
and 5 columns, and no error path exists. -/
theorem generate_random_dataframe_shape (rand : Nat → Nat → ℚ)
    (rows cols : Nat) (h : ∀ i j, 0 ≤ rand i j ∧ rand i j < 1) :
    (generate_random_dataframe rand rows cols).cols.length = cols ∧
    (∀ p ∈ (generate_random_dataframe rand rows cols).cols,
      p.2.length = rows) ∧
    (generate_random_dataframe rand rows cols).names =
      (List.range cols).map (fun j => "Column" ++ toString (j + 1)) ∧
    (∀ p ∈ (generate_random_dataframe rand rows cols).cols, ∀ v ∈ p.2,
      ∃ q, v = Value.float q ∧ 0 ≤ q ∧ q < 1) ∧
    generate_random_dataframe rand = generate_random_dataframe rand 5 5 := by
  refine ⟨?_, ?_, ?_, ?_, rfl⟩
  · simp [generate_random_dataframe]
  · intro p hp
    unfold generate_random_dataframe at hp
    simp only [List.mem_map] at hp
    rcases hp with ⟨j, hj, rfl⟩
    simp [np_random_rand]
  · simp [generate_random_dataframe, DataFrame.names, List.map_map]
  · intro p hp v hv
    unfold generate_random_dataframe at hp
    simp only [List.mem_map] at hp
    rcases hp with ⟨j, hj, rfl⟩
    simp only [List.mem_map] at hv
    rcases hv with ⟨row, hrow, rfl⟩
    unfold np_random_rand at hrow
    rcases List.mem_map.1 hrow with ⟨i, hi, rfl⟩
    refine ⟨rand i j, ?_, (h i j).1, (h i j).2⟩
    congr 1
    rw [List.getD_eq_getElem _ _
        (by simpa using List.mem_range.1 hj),
      List.getElem_map, List.getElem_range]

/-- Witness for C3: a degenerate random source generating a 2×3 table. -/
theorem generate_random_dataframe_shape_witness :
    (generate_random_dataframe Fixtures.halfRand 2 3).cols.length = 3 ∧
    (generate_random_dataframe Fixtures.halfRand 2 3).names =
      ["Column1", "Column2", "Column3"] ∧
    generate_random_dataframe Fixtures.halfRand =
      generate_random_dataframe Fixtures.halfRand 5 5 :=
  have h := generate_random_dataframe_shape Fixtures.halfRand 2 3
    (fun i j => by norm_num [Fixtures.halfRand])
  ⟨h.1, h.2.2.1.trans (by decide), h.2.2.2.2⟩

end ScriptTemplate

namespace WikiScraper

/-- C2 counterexample: a dataset that does contain the
`World Population (in thousands)` column but lacks a `Year` column makes
`plot_world_population` raise a `KeyError` (the function reads `df['Year']`
first), so no millions column is derived for it — the claim's
quantification over every dataset containing a thousands column fails. -/
theorem plot_world_population_counterexample :
    plot_world_population Fixtures.okDatetime Fixtures.noYearDf =
      Except.error "KeyError: Year" := rfl

end WikiScraper
